import Mathlib

/-!
Shallow embedding of `pkg/routes/routes.go` from beclab/zincsearch.

The file `routes.go` contains a single function `SetRoutes(r *gin.Engine)`
that (a) registers every HTTP route of the service together with its ordered
middleware chain and terminal handler, and (b) installs a `NoRoute` fallback
handler for unmatched requests.

We embed (a) as an explicit list of `Route` records in registration order,
where each gin registration `r.METHOD(path, mw1, mw2, ..., handler)` becomes
a record whose `chain` lists the stages in the order gin runs them, and (b)
as a pure function from (method, request URI) to the observable response
fields (status code, optional Location header, log entry), mirroring the Go
string operations (`strings.HasPrefix`, `strings.TrimPrefix`,
`strings.Repeat`, `strings.Count`) on `List Char` — Go strings are modelled
as character lists.
-/

namespace ZincRoutes

set_option maxHeartbeats 1000000

/-- HTTP methods used by `SetRoutes` (gin's `r.GET`, `r.POST`, `r.PUT`,
`r.DELETE`, `r.HEAD`). -/
inductive Method where
  | GET
  | POST
  | PUT
  | DELETE
  | HEAD
deriving DecidableEq

/-- One stage of a gin handler chain as written in `routes.go`:
`AuthMiddleware(op)` (the authorization middleware, parameterised by the
operation identifier string), `ESMiddleware` (protocol compatibility),
`IndexAliasMiddleware` (alias resolution), or the terminal handler,
identified by the Go expression used at the registration site. -/
inductive Stage where
  | AuthMiddleware (op : String)
  | ESMiddleware
  | IndexAliasMiddleware
  | Handler (name : String)
deriving DecidableEq

/-- A registered route: HTTP method, gin path pattern (as a character list)
and the handler chain in the order gin executes it (middlewares first, the
terminal handler last), exactly as written at the registration call. -/
structure Route where
  method : Method
  path : List Char
  chain : List Stage
deriving DecidableEq

/-- The route table registered by `SetRoutes` in `routes.go`, one entry per
gin registration call, in source order (lines 52-198).  `r.StaticFS("/ui/", ...)`
registers a GET and a HEAD route on `/ui/*filepath`.  The global `r.Use(cors...)`
middleware and `HTTPCacheForUI(r)` are engine-wide, not part of any route's
declared chain, and are omitted. -/
def SetRoutes : List Route := [
  ⟨.GET,    "/".toList,                            [.Handler "meta.GUI"]⟩,
  ⟨.GET,    "/version".toList,                     [.Handler "meta.GetVersion"]⟩,
  ⟨.GET,    "/healthz".toList,                     [.Handler "meta.GetHealthz"]⟩,
  ⟨.GET,    "/swagger".toList,                     [.Handler "redirectSwaggerIndex"]⟩,
  ⟨.GET,    "/swagger/*any".toList,                [.Handler "ginSwagger.WrapHandler"]⟩,
  ⟨.GET,    "/ui/*filepath".toList,                [.Handler "StaticFS(front)"]⟩,
  ⟨.HEAD,   "/ui/*filepath".toList,                [.Handler "StaticFS(front)"]⟩,
  ⟨.POST,   "/api/login".toList,                   [.Handler "auth.Login"]⟩,
  ⟨.POST,   "/api/user".toList,                    [.AuthMiddleware "auth.CreateUpdateUser", .Handler "auth.CreateUpdateUser"]⟩,
  ⟨.PUT,    "/api/user".toList,                    [.AuthMiddleware "auth.CreateUpdateUser", .Handler "auth.CreateUpdateUser"]⟩,
  ⟨.DELETE, "/api/user/:id".toList,                [.AuthMiddleware "auth.DeleteUser", .Handler "auth.DeleteUser"]⟩,
  ⟨.GET,    "/api/user".toList,                    [.AuthMiddleware "auth.ListUser", .Handler "auth.ListUser"]⟩,
  ⟨.GET,    "/api/permissions".toList,             [.AuthMiddleware "auth.ListPermissions", .Handler "auth.ListPermissions"]⟩,
  ⟨.GET,    "/api/role".toList,                    [.AuthMiddleware "auth.ListRole", .Handler "auth.ListRole"]⟩,
  ⟨.POST,   "/api/role".toList,                    [.AuthMiddleware "auth.CreateUpdateRole", .Handler "auth.CreateUpdateRole"]⟩,
  ⟨.PUT,    "/api/role".toList,                    [.AuthMiddleware "auth.CreateUpdateRole", .Handler "auth.CreateUpdateRole"]⟩,
  ⟨.DELETE, "/api/role/:id".toList,                [.AuthMiddleware "auth.DeleteRole", .Handler "auth.DeleteRole"]⟩,
  ⟨.GET,    "/api/index".toList,                   [.AuthMiddleware "index.List", .Handler "index.List"]⟩,
  ⟨.GET,    "/api/index_name".toList,              [.AuthMiddleware "index.IndexNameList", .Handler "index.IndexNameList"]⟩,
  ⟨.POST,   "/api/index".toList,                   [.AuthMiddleware "index.Create", .Handler "index.Create"]⟩,
  ⟨.PUT,    "/api/index".toList,                   [.AuthMiddleware "index.Create", .Handler "index.Create"]⟩,
  ⟨.PUT,    "/api/index/:target".toList,           [.AuthMiddleware "index.Create", .Handler "index.Create"]⟩,
  ⟨.DELETE, "/api/index/:target".toList,           [.AuthMiddleware "index.Delete", .Handler "index.Delete"]⟩,
  ⟨.GET,    "/api/index/:target".toList,           [.AuthMiddleware "index.Get", .Handler "index.Get"]⟩,
  ⟨.HEAD,   "/api/index/:target".toList,           [.AuthMiddleware "index.Exists", .Handler "index.Exists"]⟩,
  ⟨.POST,   "/api/index/:target/refresh".toList,   [.AuthMiddleware "index.Refresh", .Handler "index.Refresh"]⟩,
  ⟨.GET,    "/api/:target/_mapping".toList,        [.AuthMiddleware "index.GetMapping", .Handler "index.GetMapping"]⟩,
  ⟨.PUT,    "/api/:target/_mapping".toList,        [.AuthMiddleware "index.SetMapping", .Handler "index.SetMapping"]⟩,
  ⟨.GET,    "/api/:target/_settings".toList,       [.AuthMiddleware "index.GetSettings", .Handler "index.GetSettings"]⟩,
  ⟨.PUT,    "/api/:target/_settings".toList,       [.AuthMiddleware "index.SetSettings", .Handler "index.SetSettings"]⟩,
  ⟨.POST,   "/api/_analyze".toList,                [.AuthMiddleware "index.Analyze", .Handler "index.Analyze"]⟩,
  ⟨.POST,   "/api/:target/_analyze".toList,        [.AuthMiddleware "index.Analyze", .Handler "index.Analyze"]⟩,
  ⟨.POST,   "/api/:target/_search".toList,         [.AuthMiddleware "search.SearchV1", .Handler "search.SearchV1"]⟩,
  ⟨.POST,   "/api/_bulk".toList,                   [.AuthMiddleware "document.Bulk", .Handler "document.Bulk"]⟩,
  ⟨.POST,   "/api/:target/_bulk".toList,           [.AuthMiddleware "document.Bulk", .Handler "document.Bulk"]⟩,
  ⟨.POST,   "/api/:target/_multi".toList,          [.AuthMiddleware "document.Multi", .Handler "document.Multi"]⟩,
  ⟨.POST,   "/api/_bulkv2".toList,                 [.AuthMiddleware "document.Bulk", .Handler "document.Bulkv2"]⟩,
  ⟨.POST,   "/api/:target/_bulkv2".toList,         [.AuthMiddleware "document.Bulk", .Handler "document.Bulkv2"]⟩,
  ⟨.POST,   "/api/:target/_doc".toList,            [.AuthMiddleware "document.Create", .Handler "document.CreateUpdate"]⟩,
  ⟨.PUT,    "/api/:target/_doc".toList,            [.AuthMiddleware "document.Create", .Handler "document.CreateUpdate"]⟩,
  ⟨.PUT,    "/api/:target/_doc/:id".toList,        [.AuthMiddleware "document.Create", .Handler "document.CreateUpdate"]⟩,
  ⟨.HEAD,   "/api/:target/_doc/:id".toList,        [.AuthMiddleware "document.Get", .Handler "document.Get"]⟩,
  ⟨.GET,    "/api/:target/_doc/:id".toList,        [.AuthMiddleware "document.Get", .Handler "document.Get"]⟩,
  ⟨.POST,   "/api/:target/_update/:id".toList,     [.AuthMiddleware "document.Update", .Handler "document.Update"]⟩,
  ⟨.DELETE, "/api/:target/_doc/:id".toList,        [.AuthMiddleware "document.Delete", .Handler "document.Delete"]⟩,
  ⟨.GET,    "/es/".toList,                         [.ESMiddleware, .Handler "NewESInfo"]⟩,
  ⟨.HEAD,   "/es/".toList,                         [.ESMiddleware, .Handler "NewESInfo"]⟩,
  ⟨.GET,    "/es/_license".toList,                 [.ESMiddleware, .Handler "NewESLicense"]⟩,
  ⟨.GET,    "/es/_xpack".toList,                   [.ESMiddleware, .Handler "NewESXPack"]⟩,
  ⟨.POST,   "/es/_search".toList,                  [.AuthMiddleware "search.SearchDSL", .ESMiddleware, .IndexAliasMiddleware, .Handler "search.SearchDSL"]⟩,
  ⟨.POST,   "/es/_msearch".toList,                 [.AuthMiddleware "search.MultipleSearch", .ESMiddleware, .IndexAliasMiddleware, .Handler "search.MultipleSearch"]⟩,
  ⟨.POST,   "/es/:target/_search".toList,          [.AuthMiddleware "search.SearchDSL", .ESMiddleware, .IndexAliasMiddleware, .Handler "search.SearchDSL"]⟩,
  ⟨.POST,   "/es/:target/_msearch".toList,         [.AuthMiddleware "search.MultipleSearch", .ESMiddleware, .IndexAliasMiddleware, .Handler "search.MultipleSearch"]⟩,
  ⟨.POST,   "/es/:target/_delete_by_query".toList, [.AuthMiddleware "search.DeleteByQuery", .IndexAliasMiddleware, .Handler "search.DeleteByQuery"]⟩,
  ⟨.GET,    "/es/_index_template".toList,          [.AuthMiddleware "index.ListTemplate", .ESMiddleware, .Handler "index.ListTemplate"]⟩,
  ⟨.POST,   "/es/_index_template".toList,          [.AuthMiddleware "index.CreateTemplate", .ESMiddleware, .Handler "index.CreateTemplate"]⟩,
  ⟨.PUT,    "/es/_index_template/:target".toList,  [.AuthMiddleware "index.CreateTemplate", .ESMiddleware, .Handler "index.CreateTemplate"]⟩,
  ⟨.GET,    "/es/_index_template/:target".toList,  [.AuthMiddleware "index.GetTemplate", .ESMiddleware, .Handler "index.GetTemplate"]⟩,
  ⟨.HEAD,   "/es/_index_template/:target".toList,  [.AuthMiddleware "index.GetTemplate", .ESMiddleware, .Handler "index.GetTemplate"]⟩,
  ⟨.DELETE, "/es/_index_template/:target".toList,  [.AuthMiddleware "index.DeleteTemplate", .ESMiddleware, .Handler "index.DeleteTemplate"]⟩,
  ⟨.PUT,    "/es/_data_stream/:target".toList,     [.AuthMiddleware "elastic.PutDataStream", .ESMiddleware, .Handler "elastic.PutDataStream"]⟩,
  ⟨.GET,    "/es/_data_stream/:target".toList,     [.AuthMiddleware "elastic.GetDataStream", .ESMiddleware, .Handler "elastic.GetDataStream"]⟩,
  ⟨.HEAD,   "/es/_data_stream/:target".toList,     [.AuthMiddleware "elastic.GetDataStream", .ESMiddleware, .Handler "elastic.GetDataStream"]⟩,
  ⟨.PUT,    "/es/:target".toList,                  [.AuthMiddleware "index.CreateES", .ESMiddleware, .Handler "index.CreateES"]⟩,
  ⟨.HEAD,   "/es/:target".toList,                  [.AuthMiddleware "index.Exists", .ESMiddleware, .Handler "index.Exists"]⟩,
  ⟨.GET,    "/es/:target/_mapping".toList,         [.AuthMiddleware "index.GetESMapping", .ESMiddleware, .Handler "index.GetESMapping"]⟩,
  ⟨.PUT,    "/es/:target/_mapping".toList,         [.AuthMiddleware "index.SetMapping", .ESMiddleware, .Handler "index.SetMapping"]⟩,
  ⟨.GET,    "/es/:target/_settings".toList,        [.AuthMiddleware "index.GetSettings", .ESMiddleware, .Handler "index.GetSettings"]⟩,
  ⟨.PUT,    "/es/:target/_settings".toList,        [.AuthMiddleware "index.SetSettings", .ESMiddleware, .Handler "index.SetSettings"]⟩,
  ⟨.POST,   "/es/_analyze".toList,                 [.AuthMiddleware "index.Analyze", .ESMiddleware, .Handler "index.Analyze"]⟩,
  ⟨.POST,   "/es/:target/_analyze".toList,         [.AuthMiddleware "index.Analyze", .ESMiddleware, .Handler "index.Analyze"]⟩,
  ⟨.POST,   "/es/_aliases".toList,                 [.AuthMiddleware "index.AddOrRemoveESAlias", .ESMiddleware, .Handler "index.AddOrRemoveESAlias"]⟩,
  ⟨.GET,    "/es/_alias".toList,                   [.AuthMiddleware "index.GetESAliases", .ESMiddleware, .Handler "index.GetESAliases"]⟩,
  ⟨.GET,    "/es/:target/_alias".toList,           [.AuthMiddleware "index.GetESAliases", .ESMiddleware, .Handler "index.GetESAliases"]⟩,
  ⟨.GET,    "/es/_alias/:target_alias".toList,     [.AuthMiddleware "index.GetESAliases", .ESMiddleware, .Handler "index.GetESAliases"]⟩,
  ⟨.POST,   "/es/_bulk".toList,                    [.AuthMiddleware "document.ESBulk", .ESMiddleware, .Handler "document.ESBulk"]⟩,
  ⟨.POST,   "/es/:target/_bulk".toList,            [.AuthMiddleware "document.ESBulk", .ESMiddleware, .Handler "document.ESBulk"]⟩,
  ⟨.PUT,    "/es/:target/_bulk".toList,            [.AuthMiddleware "document.ESBulk", .ESMiddleware, .Handler "document.ESBulk"]⟩,
  ⟨.POST,   "/es/:target/_refresh".toList,         [.AuthMiddleware "index.Refresh", .Handler "index.Refresh"]⟩,
  ⟨.POST,   "/es/:target/_doc".toList,             [.AuthMiddleware "document.CreateUpdate", .ESMiddleware, .Handler "document.CreateUpdate"]⟩,
  ⟨.PUT,    "/es/:target/_doc/:id".toList,         [.AuthMiddleware "document.CreateUpdate", .ESMiddleware, .Handler "document.CreateUpdate"]⟩,
  ⟨.PUT,    "/es/:target/_create/:id".toList,      [.AuthMiddleware "document.CreateUpdate", .ESMiddleware, .Handler "document.CreateUpdate"]⟩,
  ⟨.POST,   "/es/:target/_create/:id".toList,      [.AuthMiddleware "document.CreateUpdate", .ESMiddleware, .Handler "document.CreateUpdate"]⟩,
  ⟨.POST,   "/es/:target/_update/:id".toList,      [.AuthMiddleware "document.Update", .ESMiddleware, .Handler "document.Update"]⟩,
  ⟨.DELETE, "/es/:target/_doc/:id".toList,         [.AuthMiddleware "document.Delete", .ESMiddleware, .Handler "document.Delete"]⟩]

example : SetRoutes.length = 85 := by decide

example : (Route.mk .POST "/api/_bulk".toList
    [.AuthMiddleware "document.Bulk", .Handler "document.Bulk"]) ∈ SetRoutes := by decide

/-- Test whether a stage is an `AuthMiddleware(op)` call (for any operation). -/
def isAuth : Stage → Bool
  | .AuthMiddleware _ => true
  | _ => false

/-- Test whether a stage is the `ESMiddleware` protocol-compatibility middleware. -/
def isES : Stage → Bool
  | .ESMiddleware => true
  | _ => false

/-- Test whether a stage is the `IndexAliasMiddleware` alias-resolution middleware. -/
def isAlias : Stage → Bool
  | .IndexAliasMiddleware => true
  | _ => false

/-- Positions (0-based) within a chain at which a stage satisfying `p` occurs. -/
def stagePos (p : Stage → Bool) (chain : List Stage) : List Nat :=
  (chain.enum.filter (fun s => p s.2)).map (fun s => s.1)

/-- Every authorization stage of the chain occurs at a strictly smaller
position than every `ESMiddleware` and every `IndexAliasMiddleware` stage. -/
def authFirst (chain : List Stage) : Bool :=
  (stagePos isAuth chain).all (fun i =>
    (stagePos isES chain).all (fun j => decide (i < j)) &&
    (stagePos isAlias chain).all (fun j => decide (i < j)))

/-- The gin path pattern prefix of the native surface. -/
def apiPre : List Char := "/api/".toList

/-- The gin path pattern prefix of the Elasticsearch-compatibility surface. -/
def esPre : List Char := "/es/".toList

/-- Number of `ESMiddleware` stages in a chain. -/
def esCount (chain : List Stage) : Nat := chain.countP isES

/-- Paths the spec designates as informational: `/version`, `/healthz`,
`/es/` together with `/es/_license` and `/es/_xpack`. -/
def informationalPaths : List (List Char) :=
  ["/version".toList, "/healthz".toList, "/es/".toList,
   "/es/_license".toList, "/es/_xpack".toList]

/-- C1: in every registered route whose chain contains an `AuthMiddleware`
stage together with an `ESMiddleware` and/or an `IndexAliasMiddleware` stage,
the authorization stage occurs strictly before both of the other stages; and
this is not vacuous — some route carries all three stages. -/
theorem auth_precedes_es_and_alias :
    (SetRoutes.all (fun r =>
      !(r.chain.any isAuth && (r.chain.any isES || r.chain.any isAlias)) ||
        authFirst r.chain) = true)
    ∧ SetRoutes.any (fun r =>
        r.chain.any isAuth && r.chain.any isES && r.chain.any isAlias) = true := by
  decide

/-- C2 (divergence of the code from the claimed uniform chain): among the
mutating/search routes of the compatibility surface, the code registers
`POST /es/:target/_delete_by_query` with chain
Authorization, IndexAlias, Handler (no `ESMiddleware` stage),
`POST /es/:target/_doc` with chain Authorization, ESMiddleware, Handler
(no `IndexAliasMiddleware` stage), and `POST /es/:target/_refresh` with chain
Authorization, Handler (neither optional stage) — none of them is the claimed
Authorization, ESMiddleware, IndexAliasMiddleware, Handler composition. -/
theorem es_chain_gaps :
    (SetRoutes.filter (fun r =>
        r.method == .POST && r.path == "/es/:target/_delete_by_query".toList)
      = [⟨.POST, "/es/:target/_delete_by_query".toList,
          [.AuthMiddleware "search.DeleteByQuery", .IndexAliasMiddleware,
           .Handler "search.DeleteByQuery"]⟩])
    ∧ (SetRoutes.filter (fun r =>
        r.method == .POST && r.path == "/es/:target/_doc".toList)
      = [⟨.POST, "/es/:target/_doc".toList,
          [.AuthMiddleware "document.CreateUpdate", .ESMiddleware,
           .Handler "document.CreateUpdate"]⟩])
    ∧ (SetRoutes.filter (fun r =>
        r.method == .POST && r.path == "/es/:target/_refresh".toList)
      = [⟨.POST, "/es/:target/_refresh".toList,
          [.AuthMiddleware "index.Refresh", .Handler "index.Refresh"]⟩]) := by
  decide

/-- C3 counterexample: the route `POST /api/login` is registered (second
conjunct) and no registration of method POST at path `/api/login` carries any
`AuthMiddleware` stage in its chain (first conjunct), refuting the claim that
its chain contains an Authorization stage bound to `auth.Login`. -/
theorem login_has_no_auth_stage :
    (SetRoutes.all (fun r =>
      !(r.method == .POST && r.path == "/api/login".toList) ||
        !(r.chain.any isAuth)) = true)
    ∧ SetRoutes.any (fun r =>
        r.method == .POST && r.path == "/api/login".toList) = true := by
  decide

/-- C3 amended: `POST /api/login` is registered exactly once, with
`auth.Login` as its terminal handler and no middleware stage at all —
in particular no Authorization stage — in its chain. -/
theorem login_route_registration :
    SetRoutes.filter (fun r =>
        r.method == .POST && r.path == "/api/login".toList)
      = [⟨.POST, "/api/login".toList, [.Handler "auth.Login"]⟩] := by
  decide

/-- C4: every registered route at an informational path (`/version`,
`/healthz`, `/es/`, `/es/_license`, `/es/_xpack`) has no `AuthMiddleware`
stage in its chain, and every informational path is in fact registered. -/
theorem informational_routes_skip_auth :
    (SetRoutes.all (fun r =>
      !(informationalPaths.contains r.path) || !(r.chain.any isAuth)) = true)
    ∧ informationalPaths.all
        (fun p => SetRoutes.any (fun r => r.path == p)) = true := by
  decide

/-- C6: whenever the same method and the same path suffix are registered
under both the native prefix `/api/` and the compatibility prefix `/es/`
(so the same concrete request path is reachable on both surfaces), the
compatibility route's chain contains the `ESMiddleware` stage exactly once
and the native route's chain contains it zero times; and such a pair exists. -/
theorem dialect_dispatch_es_once :
    (SetRoutes.all (fun r1 => SetRoutes.all (fun r2 =>
      !(r1.method == r2.method &&
          apiPre.isPrefixOf r1.path && esPre.isPrefixOf r2.path &&
          r1.path.drop apiPre.length == r2.path.drop esPre.length) ||
        (esCount r1.chain == 0 && esCount r2.chain == 1))) = true)
    ∧ SetRoutes.any (fun r1 => SetRoutes.any (fun r2 =>
        r1.method == r2.method &&
          apiPre.isPrefixOf r1.path && esPre.isPrefixOf r2.path &&
          r1.path.drop apiPre.length == r2.path.drop esPre.length)) = true := by
  decide

/-- C7: the two registrations `POST /api/_bulk` and `POST /api/:target/_bulk`
both carry the authorization stage for operation `document.Bulk` and both
dispatch to the same terminal handler `document.Bulk`. -/
theorem bulk_routes_share_operation_and_handler :
    SetRoutes.filter (fun r => r.method == .POST &&
        (r.path == "/api/_bulk".toList || r.path == "/api/:target/_bulk".toList))
      = [⟨.POST, "/api/_bulk".toList,
          [.AuthMiddleware "document.Bulk", .Handler "document.Bulk"]⟩,
         ⟨.POST, "/api/:target/_bulk".toList,
          [.AuthMiddleware "document.Bulk", .Handler "document.Bulk"]⟩] := by
  decide

/-- Log entry emitted by the `NoRoute` fallback in `routes.go`: it always
logs the request method, code 404, took 0, and the request URI as message. -/
structure LogEntry where
  method : List Char
  code : Nat
  took : Nat
  msg : List Char
deriving DecidableEq

/-- Observable outcome of the `NoRoute` fallback: the log entry, the HTTP
status code of the response, and the Location header if one was set. -/
structure FallbackResponse where
  log : LogEntry
  status : Nat
  location : Option (List Char)
deriving DecidableEq

/-- Go `strings.Repeat(s, count)`: `s` concatenated `count` times. -/
def strRepeat (s : List Char) (count : Nat) : List Char :=
  match count with
  | 0 => []
  | n + 1 => s ++ strRepeat s n

/-- Go `strings.TrimPrefix(s, pre)`: `s` without the leading `pre` when `s`
starts with `pre`, otherwise `s` unchanged. -/
def trimPre (s pre : List Char) : List Char :=
  if pre.isPrefixOf s then s.drop pre.length else s

/-- Go `strings.Count(path, "/")` for the single-character separator: the
number of slash characters (non-overlapping occurrences coincide with
character count for a one-character pattern). -/
def countSlash (s : List Char) : Nat := s.count '/'

/-- The UI path prefix `/ui/` tested by the fallback. -/
def uiPre : List Char := "/ui/".toList

/-- The `NoRoute` fallback handler installed by `SetRoutes` (routes.go lines
70-83), as a function of the request method and request URI.  It always logs
method, code 404, took 0 and the URI; when the URI starts with `/ui/` it sets
status 302 (`http.StatusFound`) and a Location header of `./` followed by
`../` repeated once per `/` in the URI after the prefix; otherwise it writes
nothing and gin's NoRoute default answers 404 with no Location header. -/
def NoRoute (method uri : List Char) : FallbackResponse :=
  if uiPre.isPrefixOf uri then
    let path := trimPre uri uiPre
    let locationPath := strRepeat "../".toList (countSlash path)
    { log := ⟨method, 404, 0, uri⟩, status := 302,
      location := some ("./".toList ++ locationPath) }
  else
    { log := ⟨method, 404, 0, uri⟩, status := 404, location := none }

/-- Occurrences of the three-character segment `../` in a character list,
counted left to right without overlap (the natural reading of "contains
exactly k `../` segments"). -/
def dotDotCount : List Char → Nat
  | '.' :: '.' :: '/' :: rest => dotDotCount rest + 1
  | _ :: rest => dotDotCount rest
  | [] => 0

/-- Path component of a request URI: everything before the first question
mark.  The claims distinguish the request path from the full request URI,
which may additionally carry a query string. -/
def reqPath (uri : List Char) : List Char :=
  uri.takeWhile (fun c => !(c == '?'))

/-- Nesting depth below the UI prefix of a request whose path starts with
`/ui/`: one more than the number of slashes separating the remaining
segments (so `/ui/a/b/c` has depth 3). -/
def uiDepth (uri : List Char) : Nat :=
  countSlash (trimPre (reqPath uri) uiPre) + 1

/-- Slash-joined concatenation of path segments. -/
def joinSlash : List (List Char) → List Char
  | [] => []
  | [s] => s
  | s :: rest => s ++ '/' :: joinSlash rest

example : dotDotCount "./../../".toList = 2 := by decide
example : joinSlash ["a".toList, "b".toList, "c".toList] = "a/b/c".toList := by decide

theorem dotDotCount_cons_seg (xs : List Char) :
    dotDotCount ('.' :: '.' :: '/' :: xs) = dotDotCount xs + 1 := rfl

theorem dotDotCount_dotSlash (xs : List Char) :
    dotDotCount ('.' :: '/' :: xs) = dotDotCount xs := rfl

theorem dotDotCount_repeat (k : Nat) :
    dotDotCount (strRepeat "../".toList k) = k := by
  induction k with
  | zero => rfl
  | succ n ih =>
    show dotDotCount ('.' :: '.' :: '/' :: strRepeat "../".toList n) = n + 1
    rw [dotDotCount_cons_seg, ih]

theorem dotDotCount_loc (k : Nat) :
    dotDotCount ("./".toList ++ strRepeat "../".toList k) = k := by
  show dotDotCount ('.' :: '/' :: strRepeat "../".toList k) = k
  rw [dotDotCount_dotSlash, dotDotCount_repeat]

theorem isPre_append (l r : List Char) : l.isPrefixOf (l ++ r) = true := by
  induction l with
  | nil => simp [List.isPrefixOf]
  | cons c t ih => simp [List.isPrefixOf, ih]

theorem countSlash_joinSlash (segs : List (List Char)) (h1 : segs ≠ [])
    (h2 : ∀ s ∈ segs, '/' ∉ s) :
    countSlash (joinSlash segs) = segs.length - 1 := by
  induction segs with
  | nil => exact absurd rfl h1
  | cons s rest ih =>
    cases rest with
    | nil =>
      have hs : '/' ∉ s := h2 s (by simp)
      simp [joinSlash, countSlash, List.count_eq_zero.mpr hs]
    | cons t ts =>
      have hs : '/' ∉ s := h2 s (by simp)
      have hrec : countSlash (joinSlash (t :: ts)) = (t :: ts).length - 1 :=
        ih (by simp) (fun x hx => h2 x (List.mem_cons_of_mem s hx))
      have hlen : (t :: ts).length - 1 + 1 = (s :: t :: ts).length - 1 := by
        simp
      calc countSlash (joinSlash (s :: t :: ts))
          = countSlash (s ++ '/' :: joinSlash (t :: ts)) := rfl
        _ = countSlash s + countSlash ('/' :: joinSlash (t :: ts)) := by
            simp [countSlash, List.count_append]
        _ = countSlash (joinSlash (t :: ts)) + 1 := by
            simp [countSlash, List.count_cons, List.count_eq_zero.mpr hs]
        _ = (s :: t :: ts).length - 1 := by rw [hrec, hlen]

theorem noroute_ui_location (m uri : List Char)
    (h : uiPre.isPrefixOf uri = true) :
    (NoRoute m uri).location
      = some ("./".toList ++ strRepeat "../".toList (countSlash (trimPre uri uiPre))) := by
  simp [NoRoute, h]

/-- C5 counterexample: the unmatched GET request with URI `/ui/a/b?x=c/d`
has request path `/ui/a/b`, at nesting depth 2 below the UI prefix, yet the
fallback's Location is `./../../`, containing two occurrences of `../` and
not the claimed depth-minus-one (= 1). -/
theorem ui_redirect_depth_cex :
    reqPath "/ui/a/b?x=c/d".toList = "/ui/a/b".toList
    ∧ uiDepth "/ui/a/b?x=c/d".toList = 2
    ∧ (NoRoute "GET".toList "/ui/a/b?x=c/d".toList).location = some "./../../".toList
    ∧ dotDotCount ((NoRoute "GET".toList "/ui/a/b?x=c/d".toList).location.getD [])
        ≠ 2 - 1 := by
  decide

/-- C5 amended: for every request (any method) whose URI is exactly the UI
prefix followed by slash-separated segments none of which contains a slash
(no query string, no trailing slash), at nesting depth N = number of
segments, the fallback's Location contains exactly N - 1 occurrences of
`../`. -/
theorem ui_redirect_depth (m : List Char) (segs : List (List Char))
    (h1 : segs ≠ []) (h2 : ∀ s ∈ segs, '/' ∉ s) :
    dotDotCount ((NoRoute m (uiPre ++ joinSlash segs)).location.getD [])
      = segs.length - 1 := by
  have hp : uiPre.isPrefixOf (uiPre ++ joinSlash segs) = true := isPre_append _ _
  have htrim : trimPre (uiPre ++ joinSlash segs) uiPre = joinSlash segs := by
    simp [trimPre, hp, List.drop_left]
  rw [noroute_ui_location _ _ hp, htrim, Option.getD_some, dotDotCount_loc,
    countSlash_joinSlash segs h1 h2]

/-- Witness for C5 amended at the concrete request `/ui/a/b/c` (three
segments): the Location contains exactly two `../` occurrences. -/
theorem ui_redirect_depth_witness :
    dotDotCount ((NoRoute "GET".toList
        (uiPre ++ joinSlash ["a".toList, "b".toList, "c".toList])).location.getD [])
      = 2 :=
  ui_redirect_depth "GET".toList ["a".toList, "b".toList, "c".toList]
    (by decide) (by decide)

/-- C8: for every unmatched request whose URI does not start with `/ui/`,
the fallback logs the method, the request URI and code 404 (took 0),
responds with status 404 (NotFound), and sets no Location header. -/
theorem noroute_non_ui (m uri : List Char)
    (h : uiPre.isPrefixOf uri = false) :
    NoRoute m uri = ⟨⟨m, 404, 0, uri⟩, 404, none⟩ := by
  simp [NoRoute, h]

/-- Witness for C8 at the concrete unmatched request `POST /api/nosuch`. -/
theorem noroute_non_ui_witness :
    NoRoute "POST".toList "/api/nosuch".toList
      = ⟨⟨"POST".toList, 404, 0, "/api/nosuch".toList⟩, 404, none⟩ :=
  noroute_non_ui _ _ (by decide)

/-- C9: for every unmatched request whose URI starts with `/ui/`, whatever
the HTTP method, the fallback responds with status 302 and a Location value
beginning with the literal `./`. -/
theorem noroute_ui_redirect (m uri : List Char)
    (h : uiPre.isPrefixOf uri = true) :
    (NoRoute m uri).status = 302
    ∧ ∃ loc, (NoRoute m uri).location = some loc
        ∧ "./".toList.isPrefixOf loc = true := by
  refine ⟨by simp [NoRoute, h],
    ⟨"./".toList ++ strRepeat "../".toList (countSlash (trimPre uri uiPre)),
      noroute_ui_location _ _ h, isPre_append _ _⟩⟩

/-- Witness for C9 at the concrete request `DELETE /ui/x/y` (a non-GET
method, showing the redirect is method-independent). -/
theorem noroute_ui_redirect_witness :
    (NoRoute "DELETE".toList "/ui/x/y".toList).status = 302
    ∧ ∃ loc, (NoRoute "DELETE".toList "/ui/x/y".toList).location = some loc
        ∧ "./".toList.isPrefixOf loc = true :=
  noroute_ui_redirect _ _ (by decide)

/-- C10: for every unmatched request whose URI starts with `/ui/`, the
number of `../` occurrences in the fallback's Location equals the number of
slash characters in the full request URI after removing the leading `/ui/`
(query-string and trailing slashes included); and on `/ui/a/b?x=c/d` that
count is 2 while the request-path nesting depth minus one is 1, so the two
measures differ on this input. -/
theorem location_counts_uri_slashes :
    (∀ m uri, uiPre.isPrefixOf uri = true →
      dotDotCount ((NoRoute m uri).location.getD [])
        = countSlash (trimPre uri uiPre))
    ∧ dotDotCount ((NoRoute "GET".toList "/ui/a/b?x=c/d".toList).location.getD []) = 2
    ∧ uiDepth "/ui/a/b?x=c/d".toList - 1 = 1
    ∧ (2 : Nat) ≠ 1 := by
  refine ⟨?_, by decide, by decide, by decide⟩
  intro m uri h
  rw [noroute_ui_location _ _ h, Option.getD_some, dotDotCount_loc]

/-- Witness for C10's universal part at the concrete request `/ui/a/b/c`. -/
theorem location_counts_uri_slashes_witness :
    dotDotCount ((NoRoute "GET".toList "/ui/a/b/c".toList).location.getD [])
      = countSlash (trimPre "/ui/a/b/c".toList uiPre) :=
  location_counts_uri_slashes.1 "GET".toList "/ui/a/b/c".toList (by decide)

end ZincRoutes
